import Mathlib

/-!
Verification of the Mav-Map front-end: the token submission flow
(MapboxTokenInput.handleSubmit, Index.handleTokenSubmit), the map
initialization effect of MapContainer, the globe rotation tick
(spinGlobe), the geocoding search handler (handleSearch) and the
view commands (resetView, toggleSpin), embedded as pure functions.
Strings are handled through character lists so that every string
operation the code performs (trim, startsWith, includes) computes
by structural recursion.
-/

namespace MavMap

/-- hasPrefixChars s p is true when the character list p is an initial
segment of the character list s (the model of String.prototype.startsWith). -/
def hasPrefixChars : List Char → List Char → Bool
  | _, [] => true
  | [], _ :: _ => false
  | a :: s, b :: p => a == b && hasPrefixChars s p

/-- hasSubstrChars s p is true when the character list p occurs
contiguously inside s (the model of String.prototype.includes). -/
def hasSubstrChars : List Char → List Char → Bool
  | [], p => hasPrefixChars [] p
  | a :: s, p => hasPrefixChars (a :: s) p || hasSubstrChars s p

/-- The model of String.prototype.trim: drop whitespace from both ends. -/
def jsTrim (s : String) : String :=
  ⟨((s.data.dropWhile Char.isWhitespace).reverse.dropWhile Char.isWhitespace).reverse⟩

/-- The model of String.prototype.startsWith. -/
def jsStartsWith (s p : String) : Bool := hasPrefixChars s.data p.data

/-- The model of String.prototype.includes. -/
def jsIncludes (s p : String) : Bool := hasSubstrChars s.data p.data

/-- Side effects of MapboxTokenInput.handleSubmit, in program order. -/
inductive SubmitEffect where
  | toastError (msg : String)
  | storeWrite (key value : String)
  | callbackSubmit (token : String)
  | toastSuccess (msg : String)
deriving DecidableEq

/-- The localStorage key used for the token. -/
def tokenStoreKey : String := "mavmap-mapbox-token"

/-- MapboxTokenInput.handleSubmit: rejects a token whose trimmed form is
empty with a toast only; otherwise writes the RAW token to localStorage,
calls onTokenSubmit with the RAW token, and shows a success toast. -/
def handleSubmit (token : String) : List SubmitEffect :=
  if jsTrim token = "" then
    [SubmitEffect.toastError "Please enter a valid Mapbox token"]
  else
    [SubmitEffect.storeWrite tokenStoreKey token,
     SubmitEffect.callbackSubmit token,
     SubmitEffect.toastSuccess "Mapbox token saved! Initializing Mav Map..."]

/-- What the Index page renders, as a function of its mapboxToken state. -/
inductive View where
  | tokenInput
  | mapContainer (token : String)
deriving DecidableEq

/-- Index: with a falsy (empty) token the token input form is shown,
otherwise the MapContainer is shown with that token. -/
def indexView (mapboxToken : String) : View :=
  if mapboxToken = "" then View.tokenInput else View.mapContainer mapboxToken

/-- Outcome of one run of the MapContainer initialization effect. -/
inductive MapInitResult where
  | noRender
  | errored (msg : String)
  | created (token : String)
deriving DecidableEq

/-- The invalid-token-format error message set by the init effect. -/
def invalidFormatMsg : String :=
  "Invalid Mapbox token format. Token should start with \"pk.\""

/-- The MapContainer useEffect body up to map creation: returns early when
the container or the token is missing, sets the format error when the
token does not start with pk., and otherwise creates the map instance. -/
def initMap (hasContainer : Bool) (mapboxToken : String) : MapInitResult :=
  if hasContainer = false ∨ mapboxToken = "" then MapInitResult.noRender
  else if jsStartsWith mapboxToken "pk." = false then
    MapInitResult.errored invalidFormatMsg
  else MapInitResult.created mapboxToken

/-- The message shown when the async map error is classified as an
authorization failure. -/
def unauthorizedMsg : String :=
  "Invalid Mapbox token. Please check your token and try again."

/-- The message shown for every other async map error. -/
def networkFailureMsg : String :=
  "Failed to load map. Please check your internet connection."

/-- The error callback of the map: e.error?.message is optional, and the
message is classified by the two substring tests of the code. -/
def classifyMapError (msg : Option String) : String :=
  match msg with
  | some m =>
      if jsIncludes m "Unauthorized" || jsIncludes m "Invalid Token" then
        unauthorizedMsg
      else networkFailureMsg
  | none => networkFailureMsg

/-- Rotation animation setting: seconds for a full revolution. -/
def secondsPerRevolution : ℚ := 240

/-- Rotation animation setting: above this zoom the globe never spins. -/
def maxSpinZoom : ℚ := 5

/-- Rotation animation setting: above this zoom the spin slows down. -/
def slowSpinZoom : ℚ := 3

/-- The degrees per second moved by one rotation tick, as computed inside
spinGlobe: the base rate 360 / secondsPerRevolution, scaled by
(maxSpinZoom - zoom) / (maxSpinZoom - slowSpinZoom) when zoom exceeds
slowSpinZoom. -/
def distancePerSecond (zoom : ℚ) : ℚ :=
  if slowSpinZoom < zoom then
    (360 / secondsPerRevolution) * ((maxSpinZoom - zoom) / (maxSpinZoom - slowSpinZoom))
  else 360 / secondsPerRevolution

/-- The state read by one spinGlobe tick. -/
structure SpinState where
  isSpinning : Bool
  userInteracting : Bool
  zoom : ℚ
  centerLng : ℚ

/-- The easeTo command issued by a spin tick: the new center longitude,
the duration in milliseconds, and the easing function. -/
structure EaseCmd where
  centerLng : ℚ
  duration : ℕ
  easing : ℚ → ℚ

/-- spinGlobe: when spinning is on, the user is not interacting and the
zoom is below maxSpinZoom, pan the center west by distancePerSecond
degrees over 1000 ms with the identity easing; otherwise do nothing. -/
def spinGlobe (s : SpinState) : Option EaseCmd :=
  if s.isSpinning = true ∧ s.userInteracting = false ∧ s.zoom < maxSpinZoom then
    some { centerLng := s.centerLng - distancePerSecond s.zoom,
           duration := 1000,
           easing := fun n => n }
  else none

/-- One geocoding candidate: its center coordinates and display label. -/
structure Feature where
  centerLng : ℚ
  centerLat : ℚ
  placeName : String
deriving DecidableEq

/-- A flyTo command: target center, zoom, optional pitch, duration in ms. -/
structure FlyToCmd where
  centerLng : ℚ
  centerLat : ℚ
  zoom : ℚ
  pitch : Option ℚ
  duration : ℕ
deriving DecidableEq

/-- A map marker with its popup HTML. -/
structure Marker where
  lng : ℚ
  lat : ℚ
  color : String
  popupHtml : String
deriving DecidableEq

/-- The popup HTML built for a found place. -/
def markerPopupHtml (placeName : String) : String :=
  "<div class=\"p-2 text-sm font-medium\">" ++ placeName ++ "</div>"

/-- The marker added for a found feature. -/
def markerOf (f : Feature) : Marker :=
  { lng := f.centerLng, lat := f.centerLat, color := "#0ea5e9",
    popupHtml := markerPopupHtml f.placeName }

/-- Everything observable from one handleSearch call: the marker list
after the call, the camera command, the toast, and whether a geocoding
request was issued at all. -/
structure SearchResult where
  markers : List Marker
  flyTo : Option FlyToCmd
  toast : Option String
  requested : Bool
deriving DecidableEq

/-- handleSearch: silently no-ops when the trimmed query is empty or no
token is present; otherwise issues the geocoding request, whose outcome
is the response argument: a transport or parsing failure (the catch
branch), a JSON body without a features array, an empty features array,
or a non-empty one, in which case the camera flies to the first feature
at zoom 12 over 2000 ms and one marker is appended. -/
def handleSearch (searchQuery mapboxToken : String)
    (response : Except Unit (Option (List Feature)))
    (markers : List Marker) : SearchResult :=
  if jsTrim searchQuery = "" ∨ mapboxToken = "" then
    { markers := markers, flyTo := none, toast := none, requested := false }
  else
    match response with
    | Except.error _ =>
        { markers := markers, flyTo := none,
          toast := some "Search failed", requested := true }
    | Except.ok none =>
        { markers := markers, flyTo := none,
          toast := some "Location not found", requested := true }
    | Except.ok (some []) =>
        { markers := markers, flyTo := none,
          toast := some "Location not found", requested := true }
    | Except.ok (some (f :: _)) =>
        { markers := markers ++ [markerOf f],
          flyTo := some { centerLng := f.centerLng, centerLat := f.centerLat,
                          zoom := 12, pitch := none, duration := 2000 },
          toast := some ("Found: " ++ f.placeName),
          requested := true }

/-- The React state of MapContainer relevant to the view commands. -/
structure UiState where
  isSpinning : Bool
  userInteracting : Bool
deriving DecidableEq

/-- resetView: turns spinning back on and flies to the fixed home view. -/
def resetView (s : UiState) : UiState × FlyToCmd :=
  ({ s with isSpinning := true },
   { centerLng := 30, centerLat := 15, zoom := 3 / 2, pitch := some 45,
     duration := 2000 })

/-- toggleSpin: flips isSpinning and toasts which mode was entered. -/
def toggleSpin (s : UiState) : UiState × String :=
  ({ s with isSpinning := !s.isSpinning },
   if s.isSpinning then "Globe rotation paused" else "Globe rotation resumed")

/-- The dependency array of the MapContainer initialization effect:
[mapboxToken, isSpinning, mapError]. -/
structure EffectDeps where
  mapboxToken : String
  isSpinning : Bool
  mapError : String
deriving DecidableEq

/-- Lifecycle events of the map instance. -/
inductive MapLifecycleEvent where
  | removeMap
  | createMap (token : String)
  | setErrorMsg (msg : String)
deriving DecidableEq

/-- One run of the initialization effect body: the lifecycle events it
emits and whether it registered a cleanup (it does exactly when it
reached map creation; the early returns register none). -/
def mapEffectBody (hasContainer : Bool) (d : EffectDeps) :
    List MapLifecycleEvent × Bool :=
  if hasContainer = false ∨ d.mapboxToken = "" then ([], false)
  else if jsStartsWith d.mapboxToken "pk." = false then
    ([MapLifecycleEvent.setErrorMsg invalidFormatMsg], false)
  else ([MapLifecycleEvent.createMap d.mapboxToken], true)

/-- React semantics of a re-render: when any entry of the dependency
array changed, the cleanup of the previous run fires (removing the map if one
was created) and the body runs again; with unchanged dependencies
nothing happens. -/
def rerenderEvents (hasContainer : Bool) (old nw : EffectDeps) :
    List MapLifecycleEvent :=
  if old = nw then []
  else (if (mapEffectBody hasContainer old).2 = true then
          [MapLifecycleEvent.removeMap]
        else []) ++ (mapEffectBody hasContainer nw).1

/-- React semantics of unmounting: only the registered cleanup fires. -/
def unmountEvents (hasContainer : Bool) (d : EffectDeps) :
    List MapLifecycleEvent :=
  if (mapEffectBody hasContainer d).2 = true then
    [MapLifecycleEvent.removeMap]
  else []

/-- Dependencies with a well-formed token and rotation on. -/
def depsSpinOn : EffectDeps :=
  { mapboxToken := "pk.abc", isSpinning := true, mapError := "" }

/-- The same dependencies after the user toggles rotation off. -/
def depsSpinOff : EffectDeps :=
  { mapboxToken := "pk.abc", isSpinning := false, mapError := "" }

/-- The Paris candidate of the scenario in the spec. -/
def parisFeature : Feature :=
  { centerLng := 47 / 20, centerLat := 977 / 20, placeName := "Paris, France" }

/-- A second candidate, for the two-searches-in-sequence scenario. -/
def londonFeature : Feature :=
  { centerLng := -1 / 8, centerLat := 103 / 2,
    placeName := "London, United Kingdom" }

/-- Trimming the empty string yields the empty string. -/
theorem jsTrim_empty : jsTrim "" = "" := rfl

/-- A string with a non-empty trimmed form is itself non-empty. -/
theorem ne_empty_of_jsTrim_ne_empty {t : String} (h : jsTrim t ≠ "") :
    t ≠ "" := by
  intro he
  subst he
  exact h jsTrim_empty

/-- Claim C5: handleSubmit fails with an error toast only (no store
write, no callback) for every candidate whose trimmed form is empty; for
every candidate with a non-empty trimmed form it writes the candidate to
the token store, invokes the submission callback, and the Index page
moves from the token-input view to the map view for that token, with no
further checks at this stage. -/
theorem submit_token_spec (t : String) :
    (jsTrim t = "" →
      handleSubmit t = [SubmitEffect.toastError "Please enter a valid Mapbox token"])
    ∧ (jsTrim t ≠ "" →
      handleSubmit t =
        [SubmitEffect.storeWrite tokenStoreKey t,
         SubmitEffect.callbackSubmit t,
         SubmitEffect.toastSuccess "Mapbox token saved! Initializing Mav Map..."]
      ∧ indexView "" = View.tokenInput
      ∧ indexView t = View.mapContainer t) := by
  constructor
  · intro h
    simp [handleSubmit, h]
  · intro h
    refine ⟨by simp [handleSubmit, h], rfl, ?_⟩
    simp [indexView, ne_empty_of_jsTrim_ne_empty h]

/-- Claim C6: resetView, from any prior state, turns rotation on and
issues a flyTo to center (30,15), zoom 1.5, pitch 45; the transient
interaction flag is untouched. -/
theorem reset_view_spec (s : UiState) :
    (resetView s).1.isSpinning = true
    ∧ (resetView s).1.userInteracting = s.userInteracting
    ∧ (resetView s).2 =
        { centerLng := 30, centerLat := 15, zoom := 3 / 2, pitch := some 45,
          duration := 2000 } :=
  ⟨rfl, rfl, rfl⟩

/-- Claim C7: toggleSpin flips the rotation flag and leaves the
interaction flag unchanged. -/
theorem toggle_rotation_spec (s : UiState) :
    (toggleSpin s).1.isSpinning = !s.isSpinning
    ∧ (toggleSpin s).1.userInteracting = s.userInteracting :=
  ⟨rfl, rfl⟩

/-- Claim C2: a token that is non-empty after trimming but does not start
with pk. is still written to the store by handleSubmit (whose effect list
contains no format check at all, so the write precedes the format check
performed later by the map effect), and the map effect then sets the
invalid-token-format error and creates no map instance. -/
theorem invalid_format_flow (t : String) (h1 : jsTrim t ≠ "")
    (h2 : jsStartsWith t "pk." = false) :
    handleSubmit t =
      [SubmitEffect.storeWrite tokenStoreKey t,
       SubmitEffect.callbackSubmit t,
       SubmitEffect.toastSuccess "Mapbox token saved! Initializing Mav Map..."]
    ∧ initMap true t = MapInitResult.errored invalidFormatMsg
    ∧ ∀ tok, initMap true t ≠ MapInitResult.created tok := by
  have ht : t ≠ "" := ne_empty_of_jsTrim_ne_empty h1
  refine ⟨by simp [handleSubmit, h1], ?_, ?_⟩
  · simp [initMap, ht, h2]
  · intro tok
    simp [initMap, ht, h2]

/-- Witness for C2 at the token of the scenario in the spec. -/
theorem invalid_format_flow_witness :
    handleSubmit "abc123" =
      [SubmitEffect.storeWrite tokenStoreKey "abc123",
       SubmitEffect.callbackSubmit "abc123",
       SubmitEffect.toastSuccess "Mapbox token saved! Initializing Mav Map..."]
    ∧ initMap true "abc123" = MapInitResult.errored invalidFormatMsg := by
  have h := invalid_format_flow "abc123" (by decide) (by decide)
  exact ⟨h.1, h.2.1⟩

/-- Claim C10: the value persisted and passed onward by handleSubmit is
the verbatim candidate, not its trimmed form; in particular there is an
input with leading whitespace whose trimmed form starts with pk. for
which submission succeeds and persists a raw token that then fails the
pk. check of the map effect. -/
theorem verbatim_token_persisted (t : String) (h : jsTrim t ≠ "") :
    handleSubmit t =
      [SubmitEffect.storeWrite tokenStoreKey t,
       SubmitEffect.callbackSubmit t,
       SubmitEffect.toastSuccess "Mapbox token saved! Initializing Mav Map..."]
    ∧ ∃ u : String,
        jsStartsWith (jsTrim u) "pk." = true
        ∧ u ≠ jsTrim u
        ∧ jsStartsWith u "pk." = false
        ∧ handleSubmit u =
            [SubmitEffect.storeWrite tokenStoreKey u,
             SubmitEffect.callbackSubmit u,
             SubmitEffect.toastSuccess "Mapbox token saved! Initializing Mav Map..."]
        ∧ initMap true u = MapInitResult.errored invalidFormatMsg := by
  refine ⟨by simp [handleSubmit, h], ?_⟩
  exact ⟨" pk.abc", by decide, by decide, by decide, by decide, by decide⟩

/-- Witness for C10 at a concrete non-empty candidate. -/
theorem verbatim_token_persisted_witness :
    handleSubmit "x" =
      [SubmitEffect.storeWrite tokenStoreKey "x",
       SubmitEffect.callbackSubmit "x",
       SubmitEffect.toastSuccess "Mapbox token saved! Initializing Mav Map..."]
    ∧ ∃ u : String,
        jsStartsWith (jsTrim u) "pk." = true
        ∧ u ≠ jsTrim u
        ∧ jsStartsWith u "pk." = false
        ∧ handleSubmit u =
            [SubmitEffect.storeWrite tokenStoreKey u,
             SubmitEffect.callbackSubmit u,
             SubmitEffect.toastSuccess "Mapbox token saved! Initializing Mav Map..."]
        ∧ initMap true u = MapInitResult.errored invalidFormatMsg :=
  verbatim_token_persisted "x" (by decide)

/-- Claim C1: a spin tick issues a pan exactly when rotation is on, the
user is not interacting and the zoom is strictly below 5; for zoom at or
above maxSpinZoom the tick produces nothing (zero displacement); every
issued pan lasts 1000 ms with the identity easing, moving the center by
the base rate 360/240 degrees per second at zoom up to slowSpinZoom and
by the base rate scaled by (5 - z)/(5 - 3) above it. -/
theorem spin_tick_spec (s : SpinState) :
    ((spinGlobe s).isSome = true ↔
      (s.isSpinning = true ∧ s.userInteracting = false ∧ s.zoom < maxSpinZoom))
    ∧ (maxSpinZoom ≤ s.zoom → spinGlobe s = none)
    ∧ ∀ c, spinGlobe s = some c →
        c.duration = 1000
        ∧ c.easing = id
        ∧ (s.zoom ≤ slowSpinZoom →
            s.centerLng - c.centerLng = 360 / secondsPerRevolution)
        ∧ (slowSpinZoom < s.zoom →
            s.centerLng - c.centerLng =
              (360 / secondsPerRevolution) *
                ((maxSpinZoom - s.zoom) / (maxSpinZoom - slowSpinZoom))) := by
  by_cases h : s.isSpinning = true ∧ s.userInteracting = false ∧ s.zoom < maxSpinZoom
  · rw [spinGlobe, if_pos h]
    refine ⟨by simp [h], ?_, ?_⟩
    · intro hz
      exact absurd h.2.2 (not_lt.mpr hz)
    · intro c hc
      rw [Option.some.injEq] at hc
      subst hc
      refine ⟨rfl, rfl, ?_, ?_⟩
      · intro hz
        rw [distancePerSecond, if_neg (not_lt.mpr hz)]
        ring
      · intro hz
        rw [distancePerSecond, if_pos hz]
        ring
  · rw [spinGlobe, if_neg h]
    refine ⟨by simp [h], fun _ => rfl, ?_⟩
    intro c hc
    exact absurd hc (by simp)

/-- Claim C4: handleSearch is a silent no-op, issuing no geocoding
request, when the trimmed query is empty or no token is present; with
the preconditions met, a transport or parsing failure toasts a generic
search-failed message, and a response with no features array or an empty
one toasts not-found; in every one of these cases the markers and the
camera are untouched. -/
theorem search_guard_and_errors (q tok : String)
    (resp : Except Unit (Option (List Feature))) (ms : List Marker) :
    ((jsTrim q = "" ∨ tok = "") →
      handleSearch q tok resp ms =
        { markers := ms, flyTo := none, toast := none, requested := false })
    ∧ (jsTrim q ≠ "" → tok ≠ "" →
        handleSearch q tok (Except.error ()) ms =
          { markers := ms, flyTo := none, toast := some "Search failed",
            requested := true }
        ∧ handleSearch q tok (Except.ok none) ms =
            { markers := ms, flyTo := none, toast := some "Location not found",
              requested := true }
        ∧ handleSearch q tok (Except.ok (some [])) ms =
            { markers := ms, flyTo := none, toast := some "Location not found",
              requested := true }) := by
  constructor
  · intro h
    rw [handleSearch.eq_def, if_pos h]
  · intro h1 h2
    have hcond : ¬(jsTrim q = "" ∨ tok = "") := by
      intro hx
      rcases hx with hx | hx
      · exact h1 hx
      · exact h2 hx
    refine ⟨?_, ?_, ?_⟩ <;> rw [handleSearch.eq_def, if_neg hcond]

/-- Claim C3: with the preconditions met, a response with at least one
feature makes handleSearch fly the camera to the first feature at zoom
12 over 2000 ms and append exactly one marker whose popup HTML wraps the
feature label; a second successful search appends one more, so two
successful searches in sequence grow the marker list by exactly two,
keeping the earlier markers. -/
theorem search_success_spec (q1 q2 tok : String) (h1 : jsTrim q1 ≠ "")
    (h2 : jsTrim q2 ≠ "") (ht : tok ≠ "") (f g : Feature)
    (fs gs : List Feature) (ms : List Marker) :
    (handleSearch q1 tok (Except.ok (some (f :: fs))) ms).flyTo =
      some { centerLng := f.centerLng, centerLat := f.centerLat, zoom := 12,
             pitch := none, duration := 2000 }
    ∧ (handleSearch q1 tok (Except.ok (some (f :: fs))) ms).toast =
        some ("Found: " ++ f.placeName)
    ∧ (handleSearch q1 tok (Except.ok (some (f :: fs))) ms).markers =
        ms ++ [markerOf f]
    ∧ (markerOf f).popupHtml =
        "<div class=\"p-2 text-sm font-medium\">" ++ f.placeName ++ "</div>"
    ∧ (handleSearch q2 tok (Except.ok (some (g :: gs)))
        ((handleSearch q1 tok (Except.ok (some (f :: fs))) ms).markers)).markers =
        ms ++ [markerOf f, markerOf g]
    ∧ (handleSearch q2 tok (Except.ok (some (g :: gs)))
        ((handleSearch q1 tok (Except.ok (some (f :: fs))) ms).markers)).markers.length =
        ms.length + 2 := by
  have hc1 : ¬(jsTrim q1 = "" ∨ tok = "") := by
    intro hx
    rcases hx with hx | hx
    · exact h1 hx
    · exact ht hx
  have hc2 : ¬(jsTrim q2 = "" ∨ tok = "") := by
    intro hx
    rcases hx with hx | hx
    · exact h2 hx
    · exact ht hx
  have e1 : handleSearch q1 tok (Except.ok (some (f :: fs))) ms =
      { markers := ms ++ [markerOf f],
        flyTo := some { centerLng := f.centerLng, centerLat := f.centerLat,
                        zoom := 12, pitch := none, duration := 2000 },
        toast := some ("Found: " ++ f.placeName), requested := true } := by
    rw [handleSearch.eq_def, if_neg hc1]
  have e2 : handleSearch q2 tok (Except.ok (some (g :: gs))) (ms ++ [markerOf f]) =
      { markers := (ms ++ [markerOf f]) ++ [markerOf g],
        flyTo := some { centerLng := g.centerLng, centerLat := g.centerLat,
                        zoom := 12, pitch := none, duration := 2000 },
        toast := some ("Found: " ++ g.placeName), requested := true } := by
    rw [handleSearch.eq_def, if_neg hc2]
  refine ⟨by rw [e1], by rw [e1], by rw [e1], rfl, ?_, ?_⟩
  · rw [e1]
    simp only [e2]
    simp [List.append_assoc]
  · rw [e1]
    simp only [e2]
    simp

/-- Witness for C3 at the Paris scenario of the spec. -/
theorem search_success_spec_witness :
    (handleSearch "Paris" "pk.token" (Except.ok (some [parisFeature])) []).flyTo =
      some { centerLng := parisFeature.centerLng,
             centerLat := parisFeature.centerLat, zoom := 12, pitch := none,
             duration := 2000 } :=
  (search_success_spec "Paris" "London" "pk.token" (by decide) (by decide)
    (by decide) parisFeature londonFeature [] [] []).1

/-- hasPrefixChars decides the initial-segment relation. -/
theorem hasPrefixChars_iff (s p : List Char) :
    hasPrefixChars s p = true ↔ ∃ r, s = p ++ r := by
  induction p generalizing s with
  | nil =>
    cases s <;> simp [hasPrefixChars]
  | cons b bs ih =>
    cases s with
    | nil =>
      simp [hasPrefixChars]
    | cons a as =>
      rw [hasPrefixChars, Bool.and_eq_true, beq_iff_eq, ih as]
      constructor
      · rintro ⟨hab, r, hr⟩
        exact ⟨r, by simp [hab, hr]⟩
      · rintro ⟨r, hr⟩
        rw [List.cons_append, List.cons.injEq] at hr
        exact ⟨hr.1, r, hr.2⟩

/-- hasSubstrChars decides the contiguous-occurrence relation. -/
theorem hasSubstrChars_iff (s p : List Char) :
    hasSubstrChars s p = true ↔ ∃ l r, s = l ++ p ++ r := by
  induction s with
  | nil =>
    rw [hasSubstrChars, hasPrefixChars_iff]
    constructor
    · rintro ⟨r, hr⟩
      exact ⟨[], r, hr⟩
    · rintro ⟨l, r, hr⟩
      rw [List.append_assoc] at hr
      cases List.append_eq_nil.mp hr.symm with
      | intro hl hpr => exact ⟨r, hpr.symm⟩
  | cons a as ih =>
    rw [hasSubstrChars, Bool.or_eq_true, hasPrefixChars_iff, ih]
    constructor
    · rintro (⟨r, hr⟩ | ⟨l, r, hr⟩)
      · exact ⟨[], r, by simp [hr]⟩
      · exact ⟨a :: l, r, by simp [hr]⟩
    · rintro ⟨l, r, hr⟩
      cases l with
      | nil =>
        exact Or.inl ⟨r, by simpa using hr⟩
      | cons x xs =>
        rw [List.cons_append, List.cons_append, List.cons.injEq] at hr
        exact Or.inr ⟨xs, r, by simp [hr.2]⟩

/-- Claim C8: an async map error whose message contains the substring
Unauthorized or the substring Invalid Token surfaces the invalid-token
message, and every other message surfaces the network-failure message. -/
theorem map_error_classification (m : String) :
    (((∃ l r, m.data = l ++ ("Unauthorized").data ++ r)
        ∨ (∃ l r, m.data = l ++ ("Invalid Token").data ++ r)) →
      classifyMapError (some m) = unauthorizedMsg)
    ∧ ((¬(∃ l r, m.data = l ++ ("Unauthorized").data ++ r))
        ∧ (¬∃ l r, m.data = l ++ ("Invalid Token").data ++ r) →
      classifyMapError (some m) = networkFailureMsg) := by
  constructor
  · intro h
    have hb : (jsIncludes m "Unauthorized" || jsIncludes m "Invalid Token") = true := by
      rw [Bool.or_eq_true]
      rcases h with h | h
      · exact Or.inl ((hasSubstrChars_iff m.data ("Unauthorized").data).mpr h)
      · exact Or.inr ((hasSubstrChars_iff m.data ("Invalid Token").data).mpr h)
    simp [classifyMapError, hb]
  · rintro ⟨h1, h2⟩
    have hb1 : jsIncludes m "Unauthorized" = false := by
      rw [← Bool.not_eq_true]
      intro hx
      exact h1 ((hasSubstrChars_iff m.data ("Unauthorized").data).mp hx)
    have hb2 : jsIncludes m "Invalid Token" = false := by
      rw [← Bool.not_eq_true]
      intro hx
      exact h2 ((hasSubstrChars_iff m.data ("Invalid Token").data).mp hx)
    simp [classifyMapError, hb1, hb2]

/-- The effect body never emits a removal event: removal only ever comes
from a cleanup. -/
theorem removeMap_not_in_body (hasContainer : Bool) (d : EffectDeps) :
    MapLifecycleEvent.removeMap ∉ (mapEffectBody hasContainer d).1 := by
  rw [mapEffectBody]
  split_ifs <;> simp

/-- Counterexample to claim C9 as stated: toggling rotation alone, with
the token unchanged and no unmount, makes the re-rendered effect remove
the live map instance (the dependency array of the effect also holds
isSpinning and mapError). -/
theorem teardown_on_rotation_toggle :
    depsSpinOn.mapboxToken = depsSpinOff.mapboxToken
    ∧ MapLifecycleEvent.removeMap ∈ rerenderEvents true depsSpinOn depsSpinOff := by
  constructor
  · rfl
  · decide

/-- Claim C9 amended: on a re-render the map instance is torn down
exactly when some entry of the dependency array (token, rotation flag or
error message) changed and the previous run had created an instance;
an unmount tears it down exactly when an instance had been created. -/
theorem teardown_iff_deps_change (hc : Bool) (old nw : EffectDeps) :
    (MapLifecycleEvent.removeMap ∈ rerenderEvents hc old nw ↔
      (old ≠ nw ∧ (mapEffectBody hc old).2 = true))
    ∧ (MapLifecycleEvent.removeMap ∈ unmountEvents hc old ↔
        (mapEffectBody hc old).2 = true)
    ∧ ((mapEffectBody hc old).2 = true ↔
        MapLifecycleEvent.createMap old.mapboxToken ∈ (mapEffectBody hc old).1) := by
  refine ⟨?_, ?_, ?_⟩
  · by_cases he : old = nw
    · simp [rerenderEvents, he]
    · rw [rerenderEvents, if_neg he]
      rw [List.mem_append]
      constructor
      · rintro (hm | hm)
        · by_cases hb : (mapEffectBody hc old).2 = true
          · exact ⟨he, hb⟩
          · rw [if_neg hb] at hm
            simp at hm
        · exact absurd hm (removeMap_not_in_body hc nw)
      · rintro ⟨_, hb⟩
        exact Or.inl (by simp [hb])
  · rw [unmountEvents]
    split_ifs with hb <;> simp [hb]
  · rw [mapEffectBody]
    split_ifs <;> simp

end MavMap
